import Mathlib

/-!
Verification of the wire-protocol client and concurrent stress-test workflow
of `stress_test_client.py`.

The development shallowly embeds the Python source:
* bytes are `List Nat` with every element `< 256`;
* the base64 codec (`base64.b64encode` / `base64.b64decode`) is modelled by
  `b64encode` / `b64decode`;
* the socket transport (`FileClient.send_command`) becomes a pure function over
  a `Conn` oracle describing what the network would do (connect outcome, send
  outcome, and the successive chunks `recv` would return before the peer
  closes); `json.loads` is an explicit `parse` argument that may raise;
* exceptions are `Except String`;
* elapsed wall-clock times measured by `time.time()` are oracle fields of the
  worker environment, represented as rationals.
-/

namespace StressClient

/-! ## Base64 codec (model of Python `base64.b64encode` / `b64decode`) -/

/-- The standard base64 alphabet used by `base64.b64encode`. -/
def b64Alphabet : List Char :=
  "ABCDEFGHIJKLMNOPQRSTUVWXYZabcdefghijklmnopqrstuvwxyz0123456789+/".data

/-- The alphabet character for a 6-bit value. -/
def b64Char (n : Nat) : Char := b64Alphabet.getD n 'A'

/-- The 6-bit value of an alphabet character; `none` on any character outside
the alphabet (in particular on the padding character). -/
def b64Val (c : Char) : Option Nat :=
  let i := b64Alphabet.indexOf c
  if i < 64 then some i else none

/-- `base64.b64encode`: groups of three bytes become four alphabet characters;
a trailing group of one or two bytes is padded with `=`. -/
def b64encode : List Nat → List Char
  | [] => []
  | [a] => [b64Char (a / 4), b64Char (a % 4 * 16), '=', '=']
  | [a, b] => [b64Char (a / 4), b64Char (a % 4 * 16 + b / 16), b64Char (b % 16 * 4), '=']
  | a :: b :: c :: rest =>
      b64Char (a / 4) :: b64Char (a % 4 * 16 + b / 16) ::
        b64Char (b % 16 * 4 + c / 64) :: b64Char (c % 64) :: b64encode rest

/-- `base64.b64decode`: consumes groups of four characters; padding is only
accepted in the final group; any input whose length is not a multiple of four,
or containing a character outside the alphabet in a data position, fails
(`binascii.Error` in Python, `none` here). -/
def b64decode : List Char → Option (List Nat)
  | [] => some []
  | c1 :: c2 :: c3 :: c4 :: rest =>
      if rest = [] ∧ c3 = '=' ∧ c4 = '=' then
        match b64Val c1, b64Val c2 with
        | some v1, some v2 => some [v1 * 4 + v2 / 16]
        | _, _ => none
      else if rest = [] ∧ c4 = '=' then
        match b64Val c1, b64Val c2, b64Val c3 with
        | some v1, some v2, some v3 =>
            some [v1 * 4 + v2 / 16, v2 % 16 * 16 + v3 / 4]
        | _, _, _ => none
      else
        match b64Val c1, b64Val c2, b64Val c3, b64Val c4, b64decode rest with
        | some v1, some v2, some v3, some v4, some bs =>
            some ((v1 * 4 + v2 / 16) :: (v2 % 16 * 16 + v3 / 4) :: (v3 % 4 * 64 + v4) :: bs)
        | _, _, _, _, _ => none
  | _ => none

/-- `base64.b64encode(...).decode()` as a `String`. -/
def b64encodeStr (d : List Nat) : String := String.mk (b64encode d)

/-- `base64.b64decode` on a `String`. -/
def b64decodeStr (s : String) : Option (List Nat) := b64decode s.data

theorem b64Val_b64Char : ∀ n, n < 64 → b64Val (b64Char n) = some n := by decide

theorem b64Char_ne_pad : ∀ n, n < 64 → ¬ b64Char n = '=' := by decide

/-- Decoding an encoded byte list recovers the bytes exactly. -/
theorem b64_roundtrip : ∀ (B : List Nat), (∀ x ∈ B, x < 256) →
    b64decode (b64encode B) = some B
  | [], _ => rfl
  | [a], h => by
      have ha : a < 256 := h a (by simp)
      have h1 : a / 4 < 64 := by omega
      have h2 : a % 4 * 16 < 64 := by omega
      simp only [b64encode, b64decode]
      rw [if_pos (by simp), b64Val_b64Char _ h1, b64Val_b64Char _ h2]
      simp only [Option.some.injEq, List.cons.injEq, and_true]
      omega
  | [a, b], h => by
      have ha : a < 256 := h a (by simp)
      have hb : b < 256 := h b (by simp)
      have h1 : a / 4 < 64 := by omega
      have h2 : a % 4 * 16 + b / 16 < 64 := by omega
      have h3 : b % 16 * 4 < 64 := by omega
      simp only [b64encode, b64decode]
      rw [if_neg (by simp [b64Char_ne_pad _ h3]), if_pos (by simp),
        b64Val_b64Char _ h1, b64Val_b64Char _ h2, b64Val_b64Char _ h3]
      simp only [Option.some.injEq, List.cons.injEq, and_true]
      constructor <;> omega
  | a :: b :: c :: rest, h => by
      have ha : a < 256 := h a (by simp)
      have hb : b < 256 := h b (by simp)
      have hc : c < 256 := h c (by simp)
      have h1 : a / 4 < 64 := by omega
      have h2 : a % 4 * 16 + b / 16 < 64 := by omega
      have h3 : b % 16 * 4 + c / 64 < 64 := by omega
      have h4 : c % 64 < 64 := by omega
      have ih := b64_roundtrip rest (fun x hx => h x
        (List.mem_cons_of_mem _ (List.mem_cons_of_mem _ (List.mem_cons_of_mem _ hx))))
      simp only [b64encode, b64decode]
      rw [if_neg (by simp [b64Char_ne_pad _ h3]), if_neg (by simp [b64Char_ne_pad _ h4]),
        b64Val_b64Char _ h1, b64Val_b64Char _ h2, b64Val_b64Char _ h3, b64Val_b64Char _ h4,
        ih]
      simp only [Option.some.injEq, List.cons.injEq, and_true]
      omega

/-! ## Transport (`FileClient.send_command`) -/

/-- The value of the `data` field of a decoded JSON response: either a string
(error messages) or a list of filenames (LIST results). -/
inductive DVal where
  | s (x : String)
  | l (xs : List String)
deriving DecidableEq

/-- A decoded JSON response dictionary: `status` is always present in the
responses this client handles; `data` and `data_file` are optional keys. -/
structure Resp where
  status : String
  data : Option DVal := none
  data_file : Option String := none
deriving DecidableEq

/-- `leadsList n h` : the list `n` is an initial segment of `h`. -/
def leadsList : List Char → List Char → Bool
  | [], _ => true
  | _ :: _, [] => false
  | a :: as, b :: bs => a == b && leadsList as bs

/-- `occursIn n h` : the list `n` occurs contiguously inside `h` (Python's
`in` operator on strings). -/
def occursIn : List Char → List Char → Bool
  | n, [] => n.isEmpty
  | n, h :: hs => leadsList n (h :: hs) || occursIn n hs

/-- Python membership test `filename in d`: list membership when `d` is a list,
substring test when `d` is a string. -/
def dvalMem (fname : String) : DVal → Bool
  | .l xs => xs.contains fname
  | .s x => occursIn fname.data x.data

/-- What the network does for one `send_command` call: whether `connect`
raises, whether `sendall` raises, and the successive chunks `recv` returns.
An empty chunk, or exhaustion of the list, means the peer has closed the
connection (`recv` returns no data). -/
structure Conn where
  connectErr : Option String := none
  sendErr : Option String := none
  chunks : List String := []
deriving DecidableEq

/-- The buffer contains the frame terminator `\r\n\r\n`. -/
def hasTerm (s : String) : Bool := occursIn "\r\n\r\n".data s.data

/-- The `recv` accumulation loop of `send_command`: repeatedly read a chunk;
a non-empty chunk is appended to the buffer and the loop stops once the buffer
contains the terminator; an empty chunk (peer closed) stops the loop at once.
Returns the accumulated buffer and `true` exactly when the loop ended because
the peer closed the connection (rather than on seeing the terminator). -/
def recvAll : List String → String → String × Bool
  | [], acc => (acc, true)
  | ch :: rest, acc =>
      if ch = "" then (acc, true)
      else
        let acc2 := acc ++ ch
        if hasTerm acc2 then (acc2, false) else recvAll rest acc2

/-- `FileClient.send_command`: connect (outside the `try` block, so a connect
failure propagates as an exception), then inside `try`/`except`: send the
command, accumulate received chunks, and decode the buffer with `json.loads`
(the `parse` argument, which may itself raise). Any exception raised inside
the `try` block is caught and turned into a `status: ERROR` response value. -/
def send_command (parse : String → Except String Resp) (conn : Conn)
    (command_str : String) : Except String Resp :=
  match conn.connectErr with
  | some e => Except.error e
  | none =>
      let attempt : Except String Resp :=
        match conn.sendErr with
        | some e => Except.error e
        | none => parse (recvAll conn.chunks "").1
      match attempt with
      | Except.ok r => Except.ok r
      | Except.error e => Except.ok {status := "ERROR", data := some (DVal.s e)}

/-! ## Protocol client operations -/

/-- The LIST request frame. -/
def listCmdStr : String := "LIST\r\n\r\n"

/-- The GET request frame for a filename. -/
def getCmdStr (filename : String) : String := "GET " ++ filename ++ "\r\n\r\n"

/-- The UPLOAD request frame for a filename and payload bytes. -/
def uploadCmdStr (filename : String) (d : List Nat) : String :=
  "UPLOAD " ++ filename ++ "\r\n" ++ b64encodeStr d ++ "\r\n\r\n"

/-- `FileClient.remote_list`. The second component records the frame sent. -/
def remote_list (parse : String → Except String Resp) (conn : Conn) :
    Except String Resp × String :=
  (send_command parse conn listCmdStr, listCmdStr)

/-- `FileClient.remote_get`: on an `OK` status, look up `data_file` (a missing
key raises `KeyError`) and base64-decode it (an invalid encoding raises
`binascii.Error`); exceptions propagate out of `remote_get` uncaught. On any
other status, return `None`. The second component records the frame sent. -/
def remote_get (parse : String → Except String Resp) (conn : Conn)
    (filename : String) : Except String (Option (List Nat)) × String :=
  (match send_command parse conn (getCmdStr filename) with
    | Except.error e => Except.error e
    | Except.ok hasil =>
        if hasil.status = "OK" then
          match hasil.data_file with
          | none => Except.error "KeyError: data_file"
          | some df =>
              match b64decodeStr df with
              | none => Except.error "binascii.Error: Invalid base64-encoded string"
              | some bytes => Except.ok (some bytes)
        else Except.ok none,
   getCmdStr filename)

/-- `FileClient.remote_upload`: when `file_data` is `None`, read the local file
named `filename` (the `fs` argument is what that read would yield); if the read
fails, return a `status: ERROR` dictionary at once without touching the
network. Otherwise encode the bytes and send the UPLOAD frame. The second
component records the frame sent over the network, `none` if no connection was
ever opened. -/
def remote_upload (parse : String → Except String Resp) (conn : Conn)
    (filename : String) (file_data : Option (List Nat))
    (fs : Except String (List Nat)) : Except String Resp × Option String :=
  match file_data with
  | some d => (send_command parse conn (uploadCmdStr filename d), some (uploadCmdStr filename d))
  | none =>
      match fs with
      | Except.error e => (Except.ok {status := "ERROR", data := some (DVal.s e)}, none)
      | Except.ok d => (send_command parse conn (uploadCmdStr filename d), some (uploadCmdStr filename d))

/-! ## Transfer workflow (`worker_task`) -/

/-- The `results['upload']` record. -/
structure UploadOut where
  success : Bool
  time : ℚ
  bytes : Nat
  server_response : Resp
deriving DecidableEq

/-- The `results['download']` record; failure entries carry only `success` and
`error` in Python, rendered here with defaulted numeric fields. -/
structure DownloadOut where
  success : Bool
  time : ℚ := 0
  bytes : Nat := 0
  data_valid : Bool := false
  error : Option String := none
deriving DecidableEq

/-- A per-worker result dictionary: optional keys become `Option` fields;
`error` is set only when an exception reached the worker boundary. -/
structure WResult where
  worker_id : Nat
  upload : Option UploadOut := none
  download : Option DownloadOut := none
  error : Option String := none
deriving DecidableEq

/-- The network operations a worker may perform, in order of occurrence. -/
inductive Call where
  | upload
  | list
  | fetch
deriving DecidableEq

/-- The environment of one worker: the bytes reading the source file yields
(or the exception doing so raises), one connection oracle per network call,
and the elapsed times the two `time.time()` differences measure. -/
structure WEnv where
  readData : Except String (List Nat)
  upConn : Conn := {}
  listConn : Conn := {}
  getConn : Conn := {}
  upTime : ℚ := 0
  downTime : ℚ := 0

/-- The per-worker upload target filename `testfile_{id}_{size}mb.dat`. -/
def worker_filename (wid sz : Nat) : String :=
  "testfile_" ++ toString wid ++ "_" ++ toString sz ++ "mb.dat"

/-- The body of `worker_task` up to (but not including) the enclosing
`try`/`except`: early `return` statements become `Except.ok`; an uncaught
exception becomes `Except.error` carrying the partially filled result, the
network calls made so far, and the message. The second component of each
result is the list of network calls performed. The `remote_upload` local-file
branch is never reached because `file_data` is always passed, so its file-read
argument is a dummy. -/
def worker_body (parse : String → Except String Resp) (env : WEnv) (sz wid : Nat) :
    Except (WResult × List Call × String) (WResult × List Call) :=
  let fname := worker_filename wid sz
  let r0 : WResult := {worker_id := wid}
  match env.readData with
  | Except.error e => Except.error (r0, [], e)
  | Except.ok file_data =>
      match (remote_upload parse env.upConn fname (some file_data) (Except.ok [])).1 with
      | Except.error e => Except.error (r0, [Call.upload], e)
      | Except.ok upload_result =>
          let upOut : UploadOut :=
            { success := upload_result.status == "OK", time := env.upTime,
              bytes := file_data.length, server_response := upload_result }
          let r1 : WResult := {r0 with upload := some upOut}
          if upOut.success then
            match (remote_list parse env.listConn).1 with
            | Except.error e => Except.error (r1, [Call.upload, Call.list], e)
            | Except.ok list_result =>
                if dvalMem fname (list_result.data.getD (DVal.l [])) then
                  match (remote_get parse env.getConn fname).1 with
                  | Except.error e =>
                      Except.error (r1, [Call.upload, Call.list, Call.fetch], e)
                  | Except.ok none =>
                      Except.ok ({r1 with download :=
                          (some {success := false, error := some "Server returned None"})},
                        [Call.upload, Call.list, Call.fetch])
                  | Except.ok (some d) =>
                      Except.ok ({r1 with download :=
                          (some {success := true, time := env.downTime, bytes := d.length,
                                 data_valid := d.take 10 == file_data.take 10})},
                        [Call.upload, Call.list, Call.fetch])
                else
                  Except.ok ({r1 with download :=
                      (some {success := false,
                             error := some "File not found on server after upload"})},
                    [Call.upload, Call.list])
          else
            Except.ok ({r1 with download :=
                (some {success := false, error := some "Upload failed, skipping download"})},
              [Call.upload])

/-- `worker_task`: run the body inside `try`/`except`; any exception is caught
at this boundary and recorded in the (partially filled) result dictionary as
`results['error']`, which is then returned like any other result. -/
def worker_task (parse : String → Except String Resp) (env : WEnv) (sz wid : Nat) :
    WResult × List Call :=
  match worker_body parse env sz wid with
  | Except.ok (r, cs) => (r, cs)
  | Except.error (r, cs, e) => ({r with error := some e}, cs)

/-! ## Worker pool orchestrator (`run_full_test`, dispatch and collection) -/

/-- Dispatch loop of `run_full_test`: submit `worker_task` for workers
`k, k+1, ...` over the remaining environments and collect every result. -/
def run_workers_go (parse : String → Except String Resp) (sz : Nat) :
    Nat → List WEnv → List WResult
  | _, [] => []
  | k, env :: rest => (worker_task parse env sz k).1 :: run_workers_go parse sz (k + 1) rest

/-- `run_full_test`, dispatch and collection: one `worker_task` per
environment, worker `i` using the `i`-th client/environment, all results
collected. -/
def run_workers (parse : String → Except String Resp) (sz : Nat)
    (envs : List WEnv) : List WResult :=
  run_workers_go parse sz 0 envs

/-! ## Statistics aggregation (`run_full_test`, lines 152-182) -/

/-- `r.get('upload', {}).get('success', False)`. -/
def uploadSucc (r : WResult) : Bool := (r.upload.map (·.success)).getD false

/-- `r.get('download', {}).get('success', False)`. -/
def downloadSucc (r : WResult) : Bool := (r.download.map (·.success)).getD false

/-- `sum(1 for r in all_results if ...upload success...)`. -/
def successful_uploads (rs : List WResult) : Nat := (rs.filter uploadSucc).length

/-- `sum(1 for r in all_results if ...download success...)`. -/
def successful_downloads (rs : List WResult) : Nat := (rs.filter downloadSucc).length

/-- `sum(r['upload']['bytes'] for r in all_results if ...upload success...)`. -/
def total_upload_bytes (rs : List WResult) : Nat :=
  ((rs.filter uploadSucc).map (fun r => (r.upload.map (·.bytes)).getD 0)).sum

/-- `sum(r['download']['bytes'] for r in all_results if ...download success...)`. -/
def total_download_bytes (rs : List WResult) : Nat :=
  ((rs.filter downloadSucc).map (fun r => (r.download.map (·.bytes)).getD 0)).sum

/-- The elapsed upload times of the results that carry an upload outcome
(`r['upload']['time'] for r in all_results if 'upload' in r`). -/
def upload_times (rs : List WResult) : List ℚ :=
  (rs.filterMap (·.upload)).map (·.time)

/-- The elapsed download times of the successful download outcomes
(`'download' in r and r['download']['success']`). -/
def download_times (rs : List WResult) : List ℚ :=
  (((rs.filterMap (·.download)).filter (·.success)).map (·.time))

/-- Python's `max` over a list: raises (here `none`) on an empty list. -/
def pyMax : List ℚ → Option ℚ
  | [] => none
  | x :: xs => some (xs.foldl max x)

/-- One phase block of the report returned by `run_full_test`. -/
structure PhaseStats where
  successful : Nat
  failed : Nat
  total_time : ℚ
  throughput : ℚ
  total_bytes : Nat
deriving DecidableEq

/-- The dictionary returned by `run_full_test`. -/
structure Report where
  num_workers : Nat
  upload : PhaseStats
  download : PhaseStats
deriving DecidableEq

/-- The statistics block of `run_full_test` (lines 152-182): counts, byte
totals, the two `max(...)` computations (which raise on an empty generator,
modelled by `none`), and the guarded throughput divisions. -/
def aggregate_stats (num_workers : Nat) (rs : List WResult) : Option Report :=
  match pyMax (upload_times rs), pyMax (download_times rs) with
  | some max_upload_time, some max_download_time =>
      some
        { num_workers := num_workers,
          upload :=
            { successful := successful_uploads rs,
              failed := num_workers - successful_uploads rs,
              total_time := max_upload_time,
              throughput :=
                if max_upload_time > 0 then
                  (total_upload_bytes rs : ℚ) / max_upload_time
                else 0,
              total_bytes := total_upload_bytes rs },
          download :=
            { successful := successful_downloads rs,
              failed := num_workers - successful_downloads rs,
              total_time := max_download_time,
              throughput :=
                if max_download_time > 0 then
                  (total_download_bytes rs : ℚ) / max_download_time
                else 0,
              total_bytes := total_download_bytes rs } }
  | _, _ => none

/-- The whole `run_full_test`: run every worker, then aggregate. -/
def run_full_test (parse : String → Except String Resp) (sz : Nat)
    (envs : List WEnv) : Option Report :=
  aggregate_stats envs.length (run_workers parse sz envs)

/-! ## Helper lemmas -/

theorem le_foldl_max : ∀ (xs : List ℚ) (x : ℚ), x ≤ xs.foldl max x := by
  intro xs
  induction xs with
  | nil => intro x; exact le_refl x
  | cons c cs ih =>
      intro x
      exact le_trans (le_max_left x c) (ih (max x c))

theorem foldl_max_ge : ∀ (xs : List ℚ) (x t : ℚ), t ∈ xs → t ≤ xs.foldl max x := by
  intro xs
  induction xs with
  | nil => intro x t ht; cases ht
  | cons c cs ih =>
      intro x t ht
      rcases List.mem_cons.mp ht with h | h
      · subst h; exact le_trans (le_max_right x t) (le_foldl_max cs (max x t))
      · exact ih (max x c) t h

theorem foldl_max_mem : ∀ (xs : List ℚ) (x : ℚ), xs.foldl max x = x ∨ xs.foldl max x ∈ xs := by
  intro xs
  induction xs with
  | nil => intro x; exact Or.inl rfl
  | cons c cs ih =>
      intro x
      rcases ih (max x c) with h | h
      · rcases max_choice x c with hm | hm
        · exact Or.inl (by rw [List.foldl_cons, h, hm])
        · exact Or.inr (by rw [List.foldl_cons, h, hm]; exact List.mem_cons_self c cs)
      · exact Or.inr (List.mem_cons_of_mem c h)

/-- Python's `max` over a non-empty list returns an element that bounds every
element of the list. -/
theorem pyMax_spec (l : List ℚ) (m : ℚ) (h : pyMax l = some m) :
    m ∈ l ∧ ∀ t ∈ l, t ≤ m := by
  cases l with
  | nil => cases h
  | cons x xs =>
      simp only [pyMax, Option.some.injEq] at h
      subst h
      refine ⟨?_, ?_⟩
      · rcases foldl_max_mem xs x with h | h
        · rw [h]; exact List.mem_cons_self x xs
        · exact List.mem_cons_of_mem x h
      · intro t ht
        rcases List.mem_cons.mp ht with h | h
        · subst h; exact le_foldl_max xs t
        · exact foldl_max_ge xs x t h

/-- Sum of `byte_count` over the successful upload outcomes, phrased directly
over the outcomes as in the specification. -/
def spec_upload_bytes (rs : List WResult) : Nat :=
  (((rs.filterMap (·.upload)).filter (·.success)).map (·.bytes)).sum

/-- Sum of `byte_count` over the successful download outcomes, phrased
directly over the outcomes as in the specification. -/
def spec_download_bytes (rs : List WResult) : Nat :=
  (((rs.filterMap (·.download)).filter (·.success)).map (·.bytes)).sum

theorem total_upload_bytes_eq_spec (rs : List WResult) :
    total_upload_bytes rs = spec_upload_bytes rs := by
  induction rs with
  | nil => rfl
  | cons r rest ih =>
      simp only [total_upload_bytes, spec_upload_bytes, List.filter_cons,
        List.filterMap_cons] at ih ⊢
      cases hu : r.upload with
      | none => simpa [uploadSucc, hu] using ih
      | some u =>
          cases hs : u.success with
          | false => simpa [uploadSucc, hu, hs] using ih
          | true => simpa [uploadSucc, hu, hs] using ih

theorem total_download_bytes_eq_spec (rs : List WResult) :
    total_download_bytes rs = spec_download_bytes rs := by
  induction rs with
  | nil => rfl
  | cons r rest ih =>
      simp only [total_download_bytes, spec_download_bytes, List.filter_cons,
        List.filterMap_cons] at ih ⊢
      cases hu : r.download with
      | none => simpa [downloadSucc, hu] using ih
      | some u =>
          cases hs : u.success with
          | false => simpa [downloadSucc, hu, hs] using ih
          | true => simpa [downloadSucc, hu, hs] using ih

theorem run_workers_go_length (parse : String → Except String Resp) (sz : Nat) :
    ∀ (envs : List WEnv) (k : Nat), (run_workers_go parse sz k envs).length = envs.length := by
  intro envs
  induction envs with
  | nil => intro k; rfl
  | cons e es ih => intro k; simp [run_workers_go, ih]

theorem run_workers_go_getElem (parse : String → Except String Resp) (sz : Nat) :
    ∀ (envs : List WEnv) (k i : Nat),
      (run_workers_go parse sz k envs)[i]? =
        (envs[i]?).map (fun env => (worker_task parse env sz (k + i)).1) := by
  intro envs
  induction envs with
  | nil => intro k i; simp [run_workers_go]
  | cons e es ih =>
      intro k i
      cases i with
      | zero => simp [run_workers_go]
      | succ j =>
          simp only [run_workers_go, List.getElem?_cons_succ]
          rw [ih (k + 1) j]
          have : k + 1 + j = k + (j + 1) := by omega
          rw [this]

/-! ## Claim theorems -/

/-- C1: for every byte sequence `B`, encoding `B` for a Store command embeds a
payload in the UPLOAD wire frame, and decoding that payload yields exactly `B`
(the base64 payload encoding is lossless and reversible byte-for-byte). -/
theorem C1_store_payload_roundtrip (filename : String) (B : List Nat)
    (h : ∀ x ∈ B, x < 256) :
    ∃ payload : String,
      uploadCmdStr filename B = "UPLOAD " ++ filename ++ "\r\n" ++ payload ++ "\r\n\r\n" ∧
      b64decodeStr payload = some B :=
  ⟨b64encodeStr B, rfl, by simpa [b64decodeStr, b64encodeStr] using b64_roundtrip B h⟩

/-- Witness for C1 at a concrete byte sequence. -/
theorem C1_witness :
    (∀ x ∈ [0, 255, 77, 10], x < 256) ∧
    ∃ payload : String,
      uploadCmdStr "f.dat" [0, 255, 77, 10] =
        "UPLOAD " ++ "f.dat" ++ "\r\n" ++ payload ++ "\r\n\r\n" ∧
      b64decodeStr payload = some [0, 255, 77, 10] :=
  ⟨by decide, C1_store_payload_roundtrip "f.dat" [0, 255, 77, 10] (by decide)⟩

/-- C4 counterexample: when establishing the connection fails, `send_command`
propagates the exception (`connect` sits outside the `try` block) instead of
returning a `status: ERROR` response value, refuting the claim as stated. -/
theorem C4_counterexample :
    send_command (fun _ => Except.ok {status := "OK"})
        {connectErr := some "Connection refused"} "LIST\r\n\r\n"
      = Except.error "Connection refused" ∧
    (send_command (fun _ => Except.ok {status := "OK"})
        {connectErr := some "Connection refused"} "LIST\r\n\r\n").toOption = none :=
  ⟨rfl, rfl⟩

/-- C4 amended: a connection-establishment failure propagates as an exception
out of `send_command` (it is only caught later at the per-worker boundary);
failures after a successful connect (send, receive, or response decode) yield
a `status: ERROR` response value for that single call. -/
theorem C4_amended_transport_failures (parse : String → Except String Resp)
    (conn : Conn) (cmd : String) (e : String) :
    (conn.connectErr = some e → send_command parse conn cmd = Except.error e) ∧
    (conn.connectErr = none → conn.sendErr = some e →
      send_command parse conn cmd = Except.ok {status := "ERROR", data := some (DVal.s e)}) ∧
    (conn.connectErr = none → conn.sendErr = none →
      parse (recvAll conn.chunks "").1 = Except.error e →
      send_command parse conn cmd = Except.ok {status := "ERROR", data := some (DVal.s e)}) := by
  refine ⟨fun h1 => ?_, fun h1 h2 => ?_, fun h1 h2 h3 => ?_⟩
  · simp [send_command, h1]
  · simp [send_command, h1, h2]
  · simp [send_command, h1, h2, h3]

/-- Witness for the amended C4: a decode failure after a successful connect
yields a `status: ERROR` response value. -/
theorem C4_amended_witness :
    send_command (fun _ => Except.error "Expecting value")
        {chunks := ["x\r\n\r\n"]} "LIST\r\n\r\n"
      = Except.ok {status := "ERROR", data := some (DVal.s "Expecting value")} :=
  (C4_amended_transport_failures (fun _ => Except.error "Expecting value")
    {chunks := ["x\r\n\r\n"]} "LIST\r\n\r\n" "Expecting value").2.2 rfl rfl rfl

/-- C5: the receive loop never hands the decoder a buffer lacking the frame
terminator unless the peer closed the connection: whenever the loop ends
without observing a close (`closed` flag `false`), the accumulated buffer
contains `\r\n\r\n`. -/
theorem C5_decode_only_on_complete_frame (chunks : List String) (acc : String)
    (h : (recvAll chunks acc).2 = false) :
    hasTerm (recvAll chunks acc).1 = true := by
  induction chunks generalizing acc with
  | nil => simp [recvAll] at h
  | cons ch rest ih =>
      by_cases hch : ch = ""
      · simp [recvAll, hch] at h
      · by_cases ht : hasTerm (acc ++ ch) = true
        · simp [recvAll, hch, ht]
        · simp only [recvAll, if_neg hch, Bool.not_eq_true] at h ⊢
          rw [if_neg (by simp [ht])] at h ⊢
          exact ih (acc ++ ch) h

/-- Witness for C5: a server sending the frame one byte at a time still ends
with the terminator in the buffer. -/
theorem C5_witness :
    hasTerm (recvAll ["a", "\r", "\n", "\r", "\n"] "").1 = true :=
  C5_decode_only_on_complete_frame ["a", "\r", "\n", "\r", "\n"] "" (by decide)

/-- C9: the encoded request frames are exactly `LIST\r\n\r\n`,
`GET <filename>\r\n\r\n`, and `UPLOAD <filename>\r\n<base64 payload>\r\n\r\n`. -/
theorem C9_request_frames (parse : String → Except String Resp) (conn : Conn)
    (f : String) (d : List Nat) (fs : Except String (List Nat)) :
    (remote_list parse conn).2 = "LIST\r\n\r\n" ∧
    (remote_get parse conn f).2 = "GET " ++ f ++ "\r\n\r\n" ∧
    (remote_upload parse conn f (some d) fs).2 =
      some ("UPLOAD " ++ f ++ "\r\n" ++ b64encodeStr d ++ "\r\n\r\n") :=
  ⟨rfl, rfl, rfl⟩

/-- C10: `remote_upload` with `file_data = None` reads the local file; if that
read fails it returns a `status: ERROR` result at once with no network I/O
(no frame is ever sent); if it succeeds, the file's bytes are uploaded. -/
theorem C10_upload_reads_local_file (parse : String → Except String Resp)
    (conn : Conn) (f : String) (fs : Except String (List Nat)) :
    (∀ e, fs = Except.error e →
      remote_upload parse conn f none fs =
        (Except.ok {status := "ERROR", data := some (DVal.s e)}, none)) ∧
    (∀ d, fs = Except.ok d →
      remote_upload parse conn f none fs =
        (send_command parse conn (uploadCmdStr f d), some (uploadCmdStr f d))) := by
  refine ⟨fun e he => ?_, fun d hd => ?_⟩
  · subst he; rfl
  · subst hd; rfl

/-- Witness for C10: a failing local read returns `status: ERROR` and sends
nothing. -/
theorem C10_witness :
    remote_upload (fun _ => Except.ok {status := "OK"}) {} "f.dat" none
        (Except.error "No such file or directory") =
      (Except.ok {status := "ERROR", data := some (DVal.s "No such file or directory")}, none) :=
  (C10_upload_reads_local_file (fun _ => Except.ok {status := "OK"}) {} "f.dat"
    (Except.error "No such file or directory")).1 "No such file or directory" rfl

/-- C2: whenever the statistics block produces a report, each phase's
aggregate throughput equals the sum of `byte_count` over that phase's
successful outcomes divided by the maximum elapsed time for that phase (the
download maximum being taken only over successful downloads), and equals `0`
when that maximum is not positive. -/
theorem C2_aggregate_throughput (n : Nat) (rs : List WResult) (rep : Report)
    (h : aggregate_stats n rs = some rep) :
    ∃ mu md : ℚ,
      (mu ∈ upload_times rs ∧ ∀ t ∈ upload_times rs, t ≤ mu) ∧
      (md ∈ download_times rs ∧ ∀ t ∈ download_times rs, t ≤ md) ∧
      rep.upload.throughput = (if 0 < mu then (spec_upload_bytes rs : ℚ) / mu else 0) ∧
      rep.download.throughput = (if 0 < md then (spec_download_bytes rs : ℚ) / md else 0) := by
  unfold aggregate_stats at h
  cases hu : pyMax (upload_times rs) with
  | none => rw [hu] at h; cases h
  | some mu =>
      cases hd : pyMax (download_times rs) with
      | none => rw [hu, hd] at h; cases h
      | some md =>
          rw [hu, hd] at h
          injection h with h
          subst h
          refine ⟨mu, md, pyMax_spec _ _ hu, pyMax_spec _ _ hd, ?_, ?_⟩
          · simp only [total_upload_bytes_eq_spec]
          · simp only [total_download_bytes_eq_spec]

/-- The spec's synthetic example: three workers, each succeeding in both
phases with 10 MB transferred, elapsed times 1 s, 2 s and 1.5 s. -/
def c2Example : List WResult :=
  [ {worker_id := 0,
     upload := some {success := true, time := 1, bytes := 10485760,
                     server_response := {status := "OK"}},
     download := some {success := true, time := 1, bytes := 10485760, data_valid := true}},
    {worker_id := 1,
     upload := some {success := true, time := 2, bytes := 10485760,
                     server_response := {status := "OK"}},
     download := some {success := true, time := 2, bytes := 10485760, data_valid := true}},
    {worker_id := 2,
     upload := some {success := true, time := 3 / 2, bytes := 10485760,
                     server_response := {status := "OK"}},
     download := some {success := true, time := 3 / 2, bytes := 10485760, data_valid := true}} ]

/-- The report the statistics block produces on `c2Example`: 30 MB over a
2-second bottleneck, i.e. 15 MB/s (15728640 bytes/s). -/
def c2ExampleReport : Report :=
  { num_workers := 3,
    upload := {successful := 3, failed := 0, total_time := 2,
               throughput := 15728640, total_bytes := 31457280},
    download := {successful := 3, failed := 0, total_time := 2,
                 throughput := 15728640, total_bytes := 31457280} }

theorem c2Example_stats : aggregate_stats 3 c2Example = some c2ExampleReport := by
  norm_num [aggregate_stats, pyMax, upload_times, download_times, c2Example,
    successful_uploads, successful_downloads, total_upload_bytes, total_download_bytes,
    uploadSucc, downloadSucc, c2ExampleReport, max_def, List.filterMap_cons,
    List.filterMap_nil, List.map_cons, List.map_nil, List.filter_cons, List.filter_nil,
    List.foldl_cons, List.foldl_nil]

/-- Witness for C2 on the spec's example: throughput is 30 MB / 2 s
= 15 MB/s (max time, not sum or average). -/
theorem C2_witness :
    aggregate_stats 3 c2Example = some c2ExampleReport ∧
    c2ExampleReport.upload.throughput = 15728640 ∧
    (∃ mu md : ℚ,
      (mu ∈ upload_times c2Example ∧ ∀ t ∈ upload_times c2Example, t ≤ mu) ∧
      (md ∈ download_times c2Example ∧ ∀ t ∈ download_times c2Example, t ≤ md) ∧
      c2ExampleReport.upload.throughput =
        (if 0 < mu then (spec_upload_bytes c2Example : ℚ) / mu else 0) ∧
      c2ExampleReport.download.throughput =
        (if 0 < md then (spec_download_bytes c2Example : ℚ) / md else 0)) :=
  ⟨c2Example_stats, rfl, C2_aggregate_throughput 3 c2Example c2ExampleReport c2Example_stats⟩

/-- C3: the pool returns exactly one result per worker; each worker's result
is a function of that worker's environment alone (so other workers' results
are unaffected by its fault); and any fault escaping a worker's body is caught
at the single-worker boundary and recorded as that result's `error` marker. -/
theorem C3_fault_containment (parse : String → Except String Resp) (sz : Nat)
    (envs : List WEnv) :
    (run_workers parse sz envs).length = envs.length ∧
    (∀ i env, envs[i]? = some env →
      (run_workers parse sz envs)[i]? = some ((worker_task parse env sz i).1)) ∧
    (∀ i env r cs e, envs[i]? = some env →
      worker_body parse env sz i = Except.error (r, cs, e) →
      ∃ res, (run_workers parse sz envs)[i]? = some res ∧ res.error = some e) := by
  refine ⟨run_workers_go_length parse sz envs 0, ?_, ?_⟩
  · intro i env henv
    rw [run_workers, run_workers_go_getElem parse sz envs 0 i, henv]
    simp
  · intro i env r cs e henv hbody
    refine ⟨{r with error := some e}, ?_, rfl⟩
    rw [run_workers, run_workers_go_getElem parse sz envs 0 i, henv]
    simp [worker_task, hbody]

/-- A response accepting everything: upload OK, the uploaded filename present
in the listing, and a payload decoding to `[65]` (used by witnesses). -/
def okResp : Resp :=
  {status := "OK", data := some (DVal.l ["testfile_0_10mb.dat"]), data_file := some "QQ=="}

/-- A server oracle that always answers `okResp` (used by witnesses). -/
def okParse : String → Except String Resp := fun _ => Except.ok okResp

/-- A worker environment whose upload connection cannot be established. -/
def envConnRefused : WEnv :=
  {readData := Except.ok [65], upConn := {connectErr := some "Connection refused"}}

/-- Witness for C3: with two workers, the second of which cannot connect, the
pool still returns two results and the faulting worker's result carries the
error marker. -/
theorem C3_witness :
    (run_workers okParse 10 [{readData := Except.ok [65]}, envConnRefused]).length = 2 ∧
    ∃ res, (run_workers okParse 10 [{readData := Except.ok [65]}, envConnRefused])[1]?
        = some res ∧ res.error = some "Connection refused" := by
  obtain ⟨hlen, -, hfault⟩ :=
    C3_fault_containment okParse 10 [{readData := Except.ok [65]}, envConnRefused]
  exact ⟨hlen, hfault 1 envConnRefused {worker_id := 1} [Call.upload] "Connection refused"
    rfl rfl⟩

/-- C7: when the upload phase fails (store response status not OK), the
workflow goes straight to Done: the download outcome is marked unsuccessful
with the skipped-because-upload-failed reason, and neither the
list-verification call nor the fetch call is performed (the call trace is
exactly the one upload). -/
theorem C7_upload_failure_skips_download (parse : String → Except String Resp)
    (env : WEnv) (sz wid : Nat) (file_data : List Nat) (upload_result : Resp)
    (hread : env.readData = Except.ok file_data)
    (hup : (remote_upload parse env.upConn (worker_filename wid sz)
        (some file_data) (Except.ok [])).1 = Except.ok upload_result)
    (hst : upload_result.status ≠ "OK") :
    worker_task parse env sz wid =
      ({worker_id := wid,
        upload := some {success := false, time := env.upTime, bytes := file_data.length,
                        server_response := upload_result},
        download := some {success := false, error := some "Upload failed, skipping download"},
        error := none},
       [Call.upload]) := by
  have hsucc : (upload_result.status == "OK") = false := by simpa using hst
  simp [worker_task, worker_body, hread, hup, hsucc]

/-- Witness for C7: a server rejecting the upload makes the worker skip both
remaining calls and record the skip reason. -/
theorem C7_witness :
    worker_task (fun _ => Except.ok {status := "ERROR", data := some (DVal.s "refused")})
        {readData := Except.ok [65]} 10 0 =
      ({worker_id := 0,
        upload := some {success := false, time := 0, bytes := 1,
                        server_response := {status := "ERROR", data := some (DVal.s "refused")}},
        download := some {success := false, error := some "Upload failed, skipping download"},
        error := none},
       [Call.upload]) :=
  C7_upload_failure_skips_download
    (fun _ => Except.ok {status := "ERROR", data := some (DVal.s "refused")})
    {readData := Except.ok [65]} 10 0 [65]
    {status := "ERROR", data := some (DVal.s "refused")} rfl rfl (by decide)

/-- C6: for a worker whose upload and list-verification succeed, the download
phase is recorded successful exactly when the fetch returns a non-absent
result, and the recorded content-match flag is true exactly when the first 10
bytes of the downloaded payload equal the first 10 bytes of the source
payload. -/
theorem C6_download_verification (parse : String → Except String Resp)
    (env : WEnv) (sz wid : Nat) (file_data : List Nat)
    (upload_result list_result : Resp)
    (hread : env.readData = Except.ok file_data)
    (hup : (remote_upload parse env.upConn (worker_filename wid sz)
        (some file_data) (Except.ok [])).1 = Except.ok upload_result)
    (hst : upload_result.status = "OK")
    (hlist : (remote_list parse env.listConn).1 = Except.ok list_result)
    (hmem : dvalMem (worker_filename wid sz) (list_result.data.getD (DVal.l [])) = true) :
    (downloadSucc (worker_task parse env sz wid).1 = true ↔
      ∃ d, (remote_get parse env.getConn (worker_filename wid sz)).1 = Except.ok (some d)) ∧
    (∀ d, (remote_get parse env.getConn (worker_filename wid sz)).1 = Except.ok (some d) →
      ∃ o, (worker_task parse env sz wid).1.download = some o ∧ o.success = true ∧
        (o.data_valid = true ↔ d.take 10 = file_data.take 10)) := by
  have hsucc : (upload_result.status == "OK") = true := by simpa using hst
  cases hget : (remote_get parse env.getConn (worker_filename wid sz)).1 with
  | error e =>
      have hw : (worker_task parse env sz wid).1.download = none := by
        simp [worker_task, worker_body, hread, hup, hsucc, hlist, hmem, hget]
      refine ⟨⟨fun hd => ?_, ?_⟩, fun d hd => ?_⟩
      · rw [downloadSucc, hw] at hd; cases hd
      · rintro ⟨d, hd⟩; exact Except.noConfusion hd
      · exact Except.noConfusion hd
  | ok o =>
      cases o with
      | none =>
          have hw : (worker_task parse env sz wid).1.download =
              some {success := false, error := some "Server returned None"} := by
            simp [worker_task, worker_body, hread, hup, hsucc, hlist, hmem, hget]
          refine ⟨⟨fun hd => ?_, ?_⟩, fun d hd => ?_⟩
          · rw [downloadSucc, hw] at hd; simp at hd
          · rintro ⟨d, hd⟩; simp at hd
          · simp at hd
      | some d0 =>
          have hw : (worker_task parse env sz wid).1.download =
              some {success := true, time := env.downTime, bytes := d0.length,
                    data_valid := d0.take 10 == file_data.take 10} := by
            simp [worker_task, worker_body, hread, hup, hsucc, hlist, hmem, hget]
          refine ⟨⟨fun _ => ⟨d0, rfl⟩, fun _ => ?_⟩, fun d hd => ?_⟩
          · rw [downloadSucc, hw]; rfl
          · injection hd with hd
            injection hd with hd
            subst hd
            exact ⟨_, hw, rfl, beq_iff_eq⟩

/-- Witness for C6 against a stub server that accepts the upload, lists the
file, and returns a payload decoding to the uploaded bytes. -/
theorem C6_witness :
    (downloadSucc (worker_task okParse {readData := Except.ok [65]} 10 0).1 = true ↔
      ∃ d, (remote_get okParse ({readData := Except.ok [65]} : WEnv).getConn
          (worker_filename 0 10)).1 = Except.ok (some d)) ∧
    (∀ d, (remote_get okParse ({readData := Except.ok [65]} : WEnv).getConn
          (worker_filename 0 10)).1 = Except.ok (some d) →
      ∃ o, (worker_task okParse {readData := Except.ok [65]} 10 0).1.download = some o ∧
        o.success = true ∧ (o.data_valid = true ↔ d.take 10 = List.take 10 [65])) :=
  C6_download_verification okParse {readData := Except.ok [65]} 10 0 [65] okResp okResp
    rfl rfl rfl rfl (by decide)

/-- C8 counterexample: when the fetch response is OK but the embedded payload
fails to base64-decode, `remote_get` raises (`binascii.Error` propagates)
instead of returning `None`, refuting the claim as stated. -/
theorem C8_counterexample :
    (remote_get (fun _ => Except.ok {status := "OK", data_file := some "abc"})
        {chunks := ["x\r\n\r\n"]} "f.dat").1
      = Except.error "binascii.Error: Invalid base64-encoded string" ∧
    ((remote_get (fun _ => Except.ok {status := "OK", data_file := some "abc"})
        {chunks := ["x\r\n\r\n"]} "f.dat").1).toOption = none :=
  ⟨rfl, rfl⟩

/-- C8 amended: on an OK response `remote_get` decodes the embedded payload
and returns the bytes; on a non-OK response it returns `None`; but a payload
that fails to decode (or a missing `data_file` key) raises an exception that
propagates out of `remote_get` (it is only caught at the worker boundary). -/
theorem C8_amended_fetch_result (parse : String → Except String Resp) (conn : Conn)
    (f : String) (hasil : Resp)
    (hsend : send_command parse conn (getCmdStr f) = Except.ok hasil) :
    (hasil.status ≠ "OK" → (remote_get parse conn f).1 = Except.ok none) ∧
    (∀ df B, hasil.status = "OK" → hasil.data_file = some df → b64decodeStr df = some B →
      (remote_get parse conn f).1 = Except.ok (some B)) ∧
    (∀ df, hasil.status = "OK" → hasil.data_file = some df → b64decodeStr df = none →
      (remote_get parse conn f).1 =
        Except.error "binascii.Error: Invalid base64-encoded string") ∧
    (hasil.status = "OK" → hasil.data_file = none →
      (remote_get parse conn f).1 = Except.error "KeyError: data_file") := by
  refine ⟨fun h1 => ?_, fun df B h1 h2 h3 => ?_, fun df h1 h2 h3 => ?_, fun h1 h2 => ?_⟩
  · simp [remote_get, hsend, h1]
  · simp [remote_get, hsend, h1, h2, h3]
  · simp [remote_get, hsend, h1, h2, h3]
  · simp [remote_get, hsend, h1, h2]

/-- A server oracle answering every request with a well-formed ERROR
response. -/
def errResp : Resp := {status := "ERROR", data := some (DVal.s "File not found")}

/-- Witness for the amended C8: an ERROR response yields `None`; an OK
response with a decodable payload yields the bytes. -/
theorem C8_amended_witness :
    (remote_get (fun _ => Except.ok errResp) {chunks := ["x\r\n\r\n"]} "f.dat").1
      = Except.ok none ∧
    (remote_get okParse {chunks := ["x\r\n\r\n"]} "f.dat").1 = Except.ok (some [65]) :=
  ⟨(C8_amended_fetch_result (fun _ => Except.ok errResp) {chunks := ["x\r\n\r\n"]}
      "f.dat" errResp rfl).1 (by decide),
   (C8_amended_fetch_result okParse {chunks := ["x\r\n\r\n"]} "f.dat" okResp rfl).2.1
      "QQ==" [65] rfl rfl (by decide)⟩

end StressClient
